import Mathlib

/-!
Verification of the PinePace road-advisory engine (`src/MapScreen.tsx`).

The engine is shallowly embedded: JavaScript numbers are modelled as `ℚ`
(timestamps as `ℤ`), GeoJSON coordinates as pairs `(longitude, latitude)`,
and the external turf point-to-line-segment distance computation
(`@turf/point-to-line-distance`, a third-party library) as an abstract
oracle parameter `Dist`; `⊤ : WithTop ℚ` models JavaScript `Infinity`.
JavaScript string primitives (`trim`, `toLowerCase`, `includes`) are
modelled by executable char-list functions.  Side effects (alerts, speech,
HTTP fetches, camera animation) are reified as an `Effect` trace; React
state that the handlers read and write is carried explicitly.
-/

namespace PinePace

/-- JavaScript `String.prototype.trim()`: strip leading and trailing
whitespace. -/
def jsTrim (s : String) : String :=
  ⟨((s.data.dropWhile Char.isWhitespace).reverse.dropWhile Char.isWhitespace).reverse⟩

/-- JavaScript `String.prototype.toLowerCase()`. -/
def lowerStr (s : String) : String := ⟨s.data.map Char.toLower⟩

/-- Does the second list occur at the head of the first list? -/
def hasPre : List Char → List Char → Bool
  | _, [] => true
  | [], _ :: _ => false
  | h :: t, p :: ps => (h = p) && hasPre t ps

/-- Does the second list occur contiguously anywhere in the first list? -/
def containsSeq : List Char → List Char → Bool
  | [], pat => pat.isEmpty
  | h :: t, pat => hasPre (h :: t) pat || containsSeq t pat

/-- JavaScript `String.prototype.includes(pat)`. -/
def containsStr (s pat : String) : Bool := containsSeq s.data pat.data

/-- A GeoJSON position, `(longitude, latitude)` — the order turf uses. -/
abbrev Point := ℚ × ℚ

/-- The external turf segment-minimum distance computation: given a point and
a line geometry with at least two positions, the distance in meters.
`@turf/point-to-line-distance` is an external library, so it enters the
model as a parameter; `⊤` models `Infinity`. -/
abbrev Dist := Point → List Point → WithTop ℚ

/-- Type `RoadFeature` (MapScreen.tsx:33): a GeoJSON line feature with
`properties.name` and optional `properties.speed_limit`.  `name := none`
models absent `properties` or an absent `name` field (both read through
`properties?.name`). -/
structure RoadFeature where
  name : Option String
  speed_limit : Option ℚ
  geometry : List Point
deriving DecidableEq

/-- Table `roadsSpeeds` (MapScreen.tsx:20-31): the static road-name → limit table. -/
def roadsSpeeds : String → Option ℚ := fun name =>
  if name = "Session Road" then some 20
  else if name = "Marcos Highway" then some 60
  else if name = "Kennon Road" then some 50
  else if name = "Naguilian Road" then some 50
  else if name = "Asin Road" then some 40
  else if name = "Loakan Road" then some 40
  else if name = "Halsema Highway" then some 50
  else if name = "Magsaysay Avenue" then some 30
  else if name = "Governor Pack Road" then some 30
  else if name = "Military Cut-Off Road" then some 20
  else none

/-- JavaScript `x || null` applied to `properties?.name`
(MapScreen.tsx:106): the empty string is falsy, so it collapses to `null`. -/
def jsOrNull : Option String → Option String
  | some s => if s = "" then none else some s
  | none => none

/-- The distance the scans observe for a feature: turf requires a line to
have at least two positions (`lineString` throws on fewer, and
`pointToLineDistance` finds no segment and leaves the minimum at
`Infinity`), so a short geometry yields `⊤`. -/
def distOf (d : Dist) (p : Point) (road : RoadFeature) : WithTop ℚ :=
  if road.geometry.length < 2 then ⊤ else d p road.geometry

/-- Effective speed limit of the feature just taken as nearest
(MapScreen.tsx:107): `speed_limit ?? roadsSpeeds[nearest ?? ""] ?? 30`,
where `nearest` has just been set to `properties?.name || null`. -/
def effectiveLimit (road : RoadFeature) : ℚ :=
  road.speed_limit.getD ((roadsSpeeds ((jsOrNull road.name).getD "")).getD 30)

/-- The three mutable locals of the nearest-road loop
(MapScreen.tsx:96-98). -/
structure NearestAcc where
  nearest : Option String
  limit : ℚ
  minDist : WithTop ℚ
deriving DecidableEq

/-- One iteration of the nearest-road loop (MapScreen.tsx:100-110).
`turfLineString` throws when the geometry has fewer than two positions and
the empty `catch` block skips the feature, leaving the accumulator as it
was. -/
def scanStep (d : Dist) (p : Point) (acc : NearestAcc) (road : RoadFeature) :
    NearestAcc :=
  if road.geometry.length < 2 then acc
  else
    let dist := d p road.geometry
    if dist < acc.minDist then
      { nearest := jsOrNull road.name, limit := effectiveLimit road,
        minDist := dist }
    else acc

/-- Initial values of the loop locals: `nearest = null`, `limit = 0`,
`minDist = Infinity` (MapScreen.tsx:96-98). -/
def initAcc : NearestAcc := { nearest := none, limit := 0, minDist := ⊤ }

/-- The nearest-road detection loop of the position callback
(MapScreen.tsx:96-110). -/
def findNearest (d : Dist) (p : Point) (features : List RoadFeature) :
    NearestAcc :=
  features.foldl (scanStep d p) initAcc

/-- The utterances the screen can speak. -/
inductive Utterance
  | overspeed (road : String) (limit : ℚ)
  | normal (road : String) (limit : ℚ)
  | routeFound (query : String)
deriving DecidableEq

/-- The React state and refs the position callback reads and writes:
`userSpeed`, `currentRoad`, `lastSpokenRef`, `region` (center only) and
`userLocationRef`. -/
structure AdvisorState where
  userSpeed : ℚ
  currentRoad : Option String
  lastSpoken : ℤ
  regionCenter : ℚ × ℚ
  userLocation : Option (ℚ × ℚ)
deriving DecidableEq

/-- One position fix: `loc.coords` plus the value `Date.now()` returns while
the callback handles it. -/
structure Fix where
  latitude : ℚ
  longitude : ℚ
  speed : Option ℚ
  now : ℤ
deriving DecidableEq

/-- The unconditional state writes at the top of the position callback
(MapScreen.tsx:91-93): `userLocationRef`, `setRegion` and
`setUserSpeed((speed ?? 0) * 3.6)`. -/
def advanceDisplay (st : AdvisorState) (fix : Fix) : AdvisorState :=
  { st with
    userLocation := some (fix.latitude, fix.longitude)
    regionCenter := (fix.latitude, fix.longitude)
    userSpeed := (fix.speed.getD 0) * 3.6 }

/-- The `watchPositionAsync` callback (MapScreen.tsx:89-125).
`capturedUserSpeed` is the value of the `userSpeed` state variable as the
callback closure captured it; the second component collects the utterances
spoken during this invocation. -/
def locationCallback (d : Dist) (features : List RoadFeature)
    (capturedUserSpeed : ℚ) (st : AdvisorState) (fix : Fix) :
    AdvisorState × List Utterance :=
  let st1 : AdvisorState := advanceDisplay st fix
  let r := findNearest d (fix.longitude, fix.latitude) features
  match r.nearest with
  | some n =>
      if r.minDist ≤ (30 : WithTop ℚ) then
        let st2 : AdvisorState := { st1 with currentRoad := some n }
        if 7000 < fix.now - st2.lastSpoken then
          ({ st2 with lastSpoken := fix.now },
           [if capturedUserSpeed > r.limit + 3 then
              Utterance.overspeed n r.limit
            else Utterance.normal n r.limit])
        else (st2, [])
      else (st1, [])
  | none => (st1, [])

/-- The callback as actually installed: the effect at MapScreen.tsx:75-128
has an empty dependency array, so it runs once, and the closure it passes to
`watchPositionAsync` captures the first render's `userSpeed`, which
`useState(0)` initialised to `0`.  `setUserSpeed` (line 93) updates the
state for later renders but never this captured binding, so the comparison
on line 117 always reads `0`. -/
def locationCallbackApp (d : Dist) (features : List RoadFeature)
    (st : AdvisorState) (fix : Fix) : AdvisorState × List Utterance :=
  locationCallback d features 0 st fix

/-- Function `getColorForSpeed` (MapScreen.tsx:58-63). -/
def getColorForSpeed (limit : ℚ) : String :=
  if limit ≤ 20 then "rgba(255,255,0,0.9)"
  else if limit ≤ 30 then "rgba(255,165,0,0.9)"
  else if limit ≤ 40 then "rgba(255,0,0,0.9)"
  else "rgba(0,128,0,0.9)"

/-- An entry of the `routeRoads` state (MapScreen.tsx:50-52). -/
structure MatchedRoad where
  name : String
  speed_limit : ℚ
  color : String
deriving DecidableEq

/-- The name used by the route-matching loop (MapScreen.tsx:178):
`properties?.name ?? "Unnamed"` — nullish coalescing, so an empty string is
kept. -/
def routeName (road : RoadFeature) : String := road.name.getD "Unnamed"

/-- The limit used by the route-matching loop (MapScreen.tsx:179):
`speed_limit ?? roadsSpeeds[name] ?? 30`. -/
def routeLimit (road : RoadFeature) : ℚ :=
  road.speed_limit.getD ((roadsSpeeds (routeName road)).getD 30)

/-- The record pushed for a matched road (MapScreen.tsx:181). -/
def mkMatched (road : RoadFeature) : MatchedRoad :=
  { name := routeName road, speed_limit := routeLimit road,
    color := getColorForSpeed (routeLimit road) }

/-- Inner loop of the route-road matching (MapScreen.tsx:175-184): one route
coordinate against one feature.  Here `pointToLineDistance` is applied to
the feature directly (no `lineString` construction and no `try`), and on a
geometry with fewer than two positions it finds no segment and returns
`Infinity`, so the 30 m test fails and the accumulator is unchanged. -/
def routeCoordStep (d : Dist) (road : RoadFeature)
    (m : List MatchedRoad) (c : Point) : List MatchedRoad :=
  if distOf d c road ≤ (30 : WithTop ℚ) then
    if m.any (fun x => x.name = routeName road) then m
    else m ++ [mkMatched road]
  else m

/-- Middle loop of the route-road matching: one feature against every route
coordinate (MapScreen.tsx:175). -/
def routeRoadStep (d : Dist) (coords : List Point)
    (m : List MatchedRoad) (road : RoadFeature) : List MatchedRoad :=
  coords.foldl (routeCoordStep d road) m

/-- The route-road matching loop of `handleSearch` (MapScreen.tsx:173-186):
`matched` starts empty and every feature is scanned against every route
coordinate. -/
def routeScan (d : Dist) (features : List RoadFeature)
    (coords : List Point) : List MatchedRoad :=
  features.foldl (routeRoadStep d coords) []

/-- One geocoder candidate, after `parseFloat` of its `lat`/`lon` fields
(MapScreen.tsx:146-147). -/
structure Candidate where
  lat : ℚ
  lon : ℚ
deriving DecidableEq

/-- The observable side effects of `handleSearch`, in program order. -/
inductive Effect
  | geocodeRequest (query : String)
  | routeRequest (userLoc : ℚ × ℚ) (dest : ℚ × ℚ)
  | alertBox (title : String) (message : String)
  | speakText (u : Utterance)
  | animate (center : Option (ℚ × ℚ))
deriving DecidableEq

/-- The React state `handleSearch` writes: `routeCoords` (as
`(latitude, longitude)` pairs), `routeRoads` and `showLegend`. -/
structure SearchState where
  routeCoords : List (ℚ × ℚ)
  routeRoads : List MatchedRoad
  showLegend : Bool
deriving DecidableEq

/-- Function `handleSearch` (MapScreen.tsx:131-199).  The parsed responses of the two
external HTTP services are inputs: `geo` is the geocoder's candidate array
and `routes` the router's `routes` array, each route reduced to its
`geometry.coordinates` (`(lon, lat)` pairs); `userLoc` is
`userLocationRef.current`.  The result is the effect trace followed by the
updated search state. -/
def handleSearch (d : Dist) (features : List RoadFeature) (query : String)
    (geo : List Candidate) (userLoc : Option (ℚ × ℚ))
    (routes : List (List Point)) (st : SearchState) :
    List Effect × SearchState :=
  if jsTrim query = "" then ([], st)
  else
    let eff1 := [Effect.geocodeRequest query]
    if geo.length = 0 then
      (eff1 ++ [Effect.alertBox "Not found" "Could not find that location."], st)
    else
      let dest := ((geo.headD ⟨0, 0⟩).lat, (geo.headD ⟨0, 0⟩).lon)
      match userLoc with
      | none =>
          (eff1 ++ [Effect.alertBox "Error" "User location not yet detected."], st)
      | some loc =>
          let eff2 := eff1 ++ [Effect.routeRequest loc dest]
          if routes.length = 0 then
            (eff2 ++ [Effect.alertBox "Routing failed" "No route found."], st)
          else
            let routeGeometry := routes.headD []
            let coords := routeGeometry.map (fun q => (q.2, q.1))
            let matched := routeScan d features routeGeometry
            let mid := coords.get? (coords.length / 2)
            (eff2 ++ [Effect.animate mid,
                      Effect.speakText (Utterance.routeFound query)],
             { routeCoords := coords, routeRoads := matched,
               showLegend := true })

/-- The suggestion filter of `handleSearchChange` (MapScreen.tsx:202-211):
`r.properties?.name?.toLowerCase().includes(text.toLowerCase())`; an absent
name short-circuits to `undefined`, which is falsy. -/
def nameMatches (text : String) (r : RoadFeature) : Bool :=
  match r.name with
  | some s => containsStr (lowerStr s) (lowerStr text)
  | none => false

/-- The suggestions state `handleSearchChange` produces
(MapScreen.tsx:202-211): empty for a blank query, otherwise the matching
features truncated by `slice(0, 5)`. -/
def suggest (features : List RoadFeature) (text : String) :
    List RoadFeature :=
  if jsTrim text = "" then []
  else (features.filter (nameMatches text)).take 5

/-! Concrete inputs used by witnesses and counterexamples. -/

/-- A named two-point feature without an explicit limit. -/
def demoSession : RoadFeature :=
  { name := some "Session Road", speed_limit := none,
    geometry := [(0, 0), (1, 1)] }

/-- A named three-point feature with an explicit limit. -/
def demoKennon : RoadFeature :=
  { name := some "Kennon Road", speed_limit := some 50,
    geometry := [(0, 1), (1, 1), (2, 2)] }

/-- A feature whose geometry has only one position: `turfLineString` throws
on it. -/
def demoBroken : RoadFeature :=
  { name := some "Broken Road", speed_limit := none, geometry := [(0, 0)] }

/-- A distance oracle that scores a line by its number of positions. -/
def dLen : Dist := fun _ coords => ((coords.length : ℚ) : WithTop ℚ)

/-- A distance oracle that puts every point on every line. -/
def dZero : Dist := fun _ _ => ((0 : ℚ) : WithTop ℚ)

/-- A distance oracle that keeps every point 100 m from every line. -/
def dFar : Dist := fun _ _ => ((100 : ℚ) : WithTop ℚ)

/-- The advisor state before any announcement: `lastSpokenRef` starts at 0. -/
def st0 : AdvisorState :=
  { userSpeed := 0, currentRoad := none, lastSpoken := 0,
    regionCenter := (16412/1000, 120599/1000), userLocation := none }

/-- A fix travelling at 10 m/s (36 km/h) long after the last announcement. -/
def fix36 : Fix := { latitude := 0, longitude := 0, speed := some 10, now := 100000 }

/-- A fix arriving 5000 ms after the epoch of `st0.lastSpoken`. -/
def fixEarly : Fix := { latitude := 0, longitude := 0, speed := some 10, now := 5000 }

/-- An empty search state. -/
def stEmpty : SearchState :=
  { routeCoords := [], routeRoads := [], showLegend := false }

/-! Helper lemmas about the nearest-road scan. -/

/-- Rewriting `scanStep` in terms of the observed distance `distOf`: skipping a short
geometry coincides with comparing against `⊤`, which never wins. -/
lemma scanStep_eq (d : Dist) (p : Point) (acc : NearestAcc)
    (road : RoadFeature) :
    scanStep d p acc road =
      if distOf d p road < acc.minDist then
        { nearest := jsOrNull road.name, limit := effectiveLimit road,
          minDist := distOf d p road }
      else acc := by
  unfold scanStep distOf
  by_cases h : road.geometry.length < 2
  · simp [h]
  · simp [h]

lemma scanStep_minDist (d : Dist) (p : Point) (acc : NearestAcc)
    (road : RoadFeature) :
    (scanStep d p acc road).minDist = min acc.minDist (distOf d p road) := by
  rw [scanStep_eq]
  by_cases h : distOf d p road < acc.minDist
  · simp [h, min_eq_right h.le]
  · simp [h, min_eq_left (not_lt.mp h)]

lemma foldl_minDist (d : Dist) (p : Point) (l : List RoadFeature) :
    ∀ acc : NearestAcc,
      (l.foldl (scanStep d p) acc).minDist
        = l.foldl (fun m g => min m (distOf d p g)) acc.minDist := by
  induction l with
  | nil => intro acc; rfl
  | cons g t ih =>
      intro acc
      simp only [List.foldl_cons]
      rw [ih, scanStep_minDist]

lemma keep_of_not_lt (d : Dist) (p : Point) (l : List RoadFeature)
    (acc : NearestAcc) :
    (∀ g ∈ l, ¬ distOf d p g < acc.minDist) →
      l.foldl (scanStep d p) acc = acc := by
  induction l with
  | nil => intro _; rfl
  | cons g t ih =>
      intro h
      simp only [List.foldl_cons]
      rw [scanStep_eq, if_neg (h g (List.mem_cons_self g t))]
      exact ih (fun x hx => h x (List.mem_cons_of_mem g hx))

lemma lt_foldl_min (d : Dist) (p : Point) (x : WithTop ℚ)
    (l : List RoadFeature) :
    ∀ m : WithTop ℚ, x < m → (∀ g ∈ l, x < distOf d p g) →
      x < l.foldl (fun m g => min m (distOf d p g)) m := by
  induction l with
  | nil => intro m hm _; exact hm
  | cons g t ih =>
      intro m hm h
      simp only [List.foldl_cons]
      exact ih _ (lt_min hm (h g (List.mem_cons_self g t)))
        (fun y hy => h y (List.mem_cons_of_mem g hy))

/-- The scan keeps the first feature that attains the strict running
minimum: everything before it is strictly farther, everything after it is
no nearer, and its own distance is finite. -/
lemma findNearest_firstMin (d : Dist) (p : Point) (l₁ : List RoadFeature)
    (f : RoadFeature) (l₂ : List RoadFeature)
    (h₁ : ∀ g ∈ l₁, distOf d p f < distOf d p g)
    (h₂ : ∀ g ∈ l₂, distOf d p f ≤ distOf d p g)
    (h₃ : distOf d p f ≠ ⊤) :
    findNearest d p (l₁ ++ f :: l₂) =
      { nearest := jsOrNull f.name, limit := effectiveLimit f,
        minDist := distOf d p f } := by
  unfold findNearest
  rw [List.foldl_append, List.foldl_cons]
  have hacc : distOf d p f < (l₁.foldl (scanStep d p) initAcc).minDist := by
    rw [foldl_minDist]
    exact lt_foldl_min d p _ l₁ _ (lt_top_iff_ne_top.mpr h₃) h₁
  rw [scanStep_eq, if_pos hacc]
  exact keep_of_not_lt d p l₂ _ (fun g hg => not_lt.mpr (h₂ g hg))

/-- A scan over features that all have short geometries never leaves the
initial accumulator. -/
lemma findNearest_all_short (d : Dist) (p : Point) (l : List RoadFeature)
    (h : ∀ g ∈ l, g.geometry.length < 2) :
    findNearest d p l = initAcc := by
  unfold findNearest
  exact keep_of_not_lt d p l initAcc (fun g hg => by
    unfold distOf
    rw [if_pos (h g hg)]
    exact not_top_lt)

/-! Helper lemmas about the route-road matching scan. -/

/-- A feature no route coordinate reaches leaves the accumulator alone. -/
lemma routeRoadStep_none (d : Dist) (coords : List Point)
    (road : RoadFeature) (m : List MatchedRoad)
    (h : ∀ c ∈ coords, ¬ distOf d c road ≤ (30 : WithTop ℚ)) :
    routeRoadStep d coords m road = m := by
  unfold routeRoadStep
  induction coords with
  | nil => rfl
  | cons c t ih =>
      simp only [List.foldl_cons]
      rw [show routeCoordStep d road m c = m from by
        unfold routeCoordStep
        rw [if_neg (h c (List.mem_cons_self c t))]]
      exact ih (fun x hx => h x (List.mem_cons_of_mem c hx))

/-- A feature whose route-scan name is already present is never pushed
again. -/
lemma routeRoadStep_present (d : Dist) (coords : List Point)
    (road : RoadFeature) (m : List MatchedRoad)
    (h : m.any (fun x => x.name = routeName road) = true) :
    routeRoadStep d coords m road = m := by
  unfold routeRoadStep
  induction coords with
  | nil => rfl
  | cons c t ih =>
      simp only [List.foldl_cons]
      rw [show routeCoordStep d road m c = m from by
        unfold routeCoordStep
        by_cases hd : distOf d c road ≤ (30 : WithTop ℚ)
        · rw [if_pos hd, if_pos h]
        · rw [if_neg hd]]
      exact ih

/-- A feature within 30 m of some route coordinate and not yet present is
pushed exactly once, at the end. -/
lemma routeRoadStep_hit (d : Dist) (coords : List Point)
    (road : RoadFeature) (m : List MatchedRoad)
    (h1 : ∃ c ∈ coords, distOf d c road ≤ (30 : WithTop ℚ))
    (h2 : m.any (fun x => x.name = routeName road) = false) :
    routeRoadStep d coords m road = m ++ [mkMatched road] := by
  induction coords with
  | nil => obtain ⟨c, hc, _⟩ := h1; exact absurd hc (List.not_mem_nil c)
  | cons c t ih =>
      by_cases hd : distOf d c road ≤ (30 : WithTop ℚ)
      · unfold routeRoadStep
        simp only [List.foldl_cons]
        rw [show routeCoordStep d road m c = m ++ [mkMatched road] from by
          unfold routeCoordStep
          rw [if_pos hd, if_neg (by rw [h2]; exact Bool.false_ne_true)]]
        have hpres : (m ++ [mkMatched road]).any
            (fun x => x.name = routeName road) = true := by
          simp [mkMatched]
        exact routeRoadStep_present d t road (m ++ [mkMatched road]) hpres
      · have h1t : ∃ x ∈ t, distOf d x road ≤ (30 : WithTop ℚ) := by
          obtain ⟨c0, hc0, hle⟩ := h1
          rcases List.mem_cons.mp hc0 with rfl | hmem
          · exact absurd hle hd
          · exact ⟨c0, hmem, hle⟩
        unfold routeRoadStep
        simp only [List.foldl_cons]
        rw [show routeCoordStep d road m c = m from by
          unfold routeCoordStep; rw [if_neg hd]]
        exact ih h1t

/-- Case split: `routeRoadStep` either keeps the accumulator or appends the single
record of a feature some route coordinate reaches. -/
lemma routeRoadStep_cases (d : Dist) (coords : List Point)
    (road : RoadFeature) (m : List MatchedRoad) :
    routeRoadStep d coords m road = m ∨
      (routeRoadStep d coords m road = m ++ [mkMatched road] ∧
        (∃ c ∈ coords, distOf d c road ≤ (30 : WithTop ℚ)) ∧
        m.any (fun x => x.name = routeName road) = false) := by
  by_cases h1 : ∃ c ∈ coords, distOf d c road ≤ (30 : WithTop ℚ)
  · by_cases h2 : m.any (fun x => x.name = routeName road) = true
    · exact Or.inl (routeRoadStep_present d coords road m h2)
    · exact Or.inr ⟨routeRoadStep_hit d coords road m h1
        (Bool.eq_false_iff.mpr h2), h1, Bool.eq_false_iff.mpr h2⟩
  · exact Or.inl (routeRoadStep_none d coords road m
      (fun c hc hle => h1 ⟨c, hc, hle⟩))

/-- The matched accumulator only grows, by appending at the end. -/
lemma routeScan_grow (d : Dist) (coords : List Point)
    (t : List RoadFeature) :
    ∀ m : List MatchedRoad,
      ∃ rest, t.foldl (routeRoadStep d coords) m = m ++ rest := by
  induction t with
  | nil => intro m; exact ⟨[], (List.append_nil m).symm⟩
  | cons road t ih =>
      intro m
      rcases routeRoadStep_cases d coords road m with h | ⟨h, _, _⟩
      · obtain ⟨rest, hrest⟩ := ih (routeRoadStep d coords m road)
        exact ⟨rest, by rw [List.foldl_cons, hrest, h]⟩
      · obtain ⟨rest, hrest⟩ := ih (routeRoadStep d coords m road)
        exact ⟨[mkMatched road] ++ rest, by
          rw [List.foldl_cons, hrest, h, List.append_assoc]⟩

/-- Every record the scan produces comes from a feature that some route
coordinate reaches, and is that feature's record. -/
lemma routeScan_sound (d : Dist) (coords : List Point)
    (t : List RoadFeature) :
    ∀ m : List MatchedRoad, ∀ x ∈ t.foldl (routeRoadStep d coords) m,
      x ∈ m ∨ ∃ road ∈ t,
        (∃ c ∈ coords, distOf d c road ≤ (30 : WithTop ℚ)) ∧
          x = mkMatched road := by
  induction t with
  | nil => intro m x hx; exact Or.inl hx
  | cons road t ih =>
      intro m x hx
      rw [List.foldl_cons] at hx
      rcases ih (routeRoadStep d coords m road) x hx with hstep | ⟨r, hr, hhit, hx'⟩
      · rcases routeRoadStep_cases d coords road m with h | ⟨h, hhit, _⟩
        · rw [h] at hstep; exact Or.inl hstep
        · rw [h] at hstep
          rcases List.mem_append.mp hstep with hm | hone
          · exact Or.inl hm
          · refine Or.inr ⟨road, List.mem_cons_self road t, hhit, ?_⟩
            simpa using hone
      · exact Or.inr ⟨r, List.mem_cons_of_mem road hr, hhit, hx'⟩

/-- Every feature some route coordinate reaches has its route-scan name in
the result. -/
lemma routeScan_complete (d : Dist) (coords : List Point)
    (t : List RoadFeature) :
    ∀ m : List MatchedRoad, ∀ road ∈ t,
      (∃ c ∈ coords, distOf d c road ≤ (30 : WithTop ℚ)) →
      ∃ x ∈ t.foldl (routeRoadStep d coords) m, x.name = routeName road := by
  induction t with
  | nil => intro m road hr; exact absurd hr (List.not_mem_nil road)
  | cons r t ih =>
      intro m road hroad hhit
      rw [List.foldl_cons]
      rcases List.mem_cons.mp hroad with rfl | hmem
      · by_cases h2 : m.any (fun x => x.name = routeName road) = true
        · obtain ⟨x, hxm, hxname⟩ := List.any_eq_true.mp h2
          obtain ⟨rest, hrest⟩ := routeScan_grow d coords t (routeRoadStep d coords m road)
          rcases routeRoadStep_cases d coords road m with h | ⟨h, _, _⟩
          · exact ⟨x, by
              rw [hrest, h]
              exact List.mem_append_left rest hxm, of_decide_eq_true hxname⟩
          · exact ⟨x, by
              rw [hrest, h]
              exact List.mem_append_left rest (List.mem_append_left _ hxm),
              of_decide_eq_true hxname⟩
        · have hstep := routeRoadStep_hit d coords road m hhit
            (Bool.eq_false_iff.mpr h2)
          obtain ⟨rest, hrest⟩ := routeScan_grow d coords t (routeRoadStep d coords m road)
          refine ⟨mkMatched road, ?_, rfl⟩
          rw [hrest, hstep]
          exact List.mem_append_left rest (List.mem_append_right m (by simp))
      · exact ih (routeRoadStep d coords m r) road hmem hhit

/-- The scan never records the same name twice. -/
lemma routeScan_nodup (d : Dist) (coords : List Point)
    (t : List RoadFeature) :
    ∀ m : List MatchedRoad, (m.map MatchedRoad.name).Nodup →
      ((t.foldl (routeRoadStep d coords) m).map MatchedRoad.name).Nodup := by
  induction t with
  | nil => intro m hm; exact hm
  | cons road t ih =>
      intro m hm
      rw [List.foldl_cons]
      refine ih (routeRoadStep d coords m road) ?_
      rcases routeRoadStep_cases d coords road m with h | ⟨h, _, hfresh⟩
      · rw [h]; exact hm
      · rw [h]
        have hnotin : routeName road ∉ m.map MatchedRoad.name := by
          intro hmem
          obtain ⟨x, hxm, hxname⟩ := List.mem_map.mp hmem
          have : m.any (fun x => x.name = routeName road) = true :=
            List.any_eq_true.mpr ⟨x, hxm, decide_eq_true hxname⟩
          rw [hfresh] at this
          exact Bool.false_ne_true this
        simp only [List.map_append, List.map_cons, List.map_nil]
        rw [List.nodup_append]
        refine ⟨hm, List.nodup_singleton _, ?_⟩
        intro a ha hb
        rcases List.mem_singleton.mp hb with rfl
        exact hnotin (by simpa [mkMatched] using ha)

/-! Helper lemmas about the position callback. -/

lemma locationCallback_no_nearest (d : Dist) (features : List RoadFeature)
    (cap : ℚ) (st : AdvisorState) (fix : Fix)
    (h : (findNearest d (fix.longitude, fix.latitude) features).nearest = none) :
    locationCallback d features cap st fix = (advanceDisplay st fix, []) := by
  simp only [locationCallback, h]

lemma locationCallback_far (d : Dist) (features : List RoadFeature)
    (cap : ℚ) (st : AdvisorState) (fix : Fix) (n : String)
    (h : (findNearest d (fix.longitude, fix.latitude) features).nearest = some n)
    (hd : ¬ (findNearest d (fix.longitude, fix.latitude) features).minDist
        ≤ (30 : WithTop ℚ)) :
    locationCallback d features cap st fix = (advanceDisplay st fix, []) := by
  simp only [locationCallback, h]
  rw [if_neg hd]

lemma locationCallback_cooldown (d : Dist) (features : List RoadFeature)
    (cap : ℚ) (st : AdvisorState) (fix : Fix) (n : String)
    (h : (findNearest d (fix.longitude, fix.latitude) features).nearest = some n)
    (hd : (findNearest d (fix.longitude, fix.latitude) features).minDist
        ≤ (30 : WithTop ℚ))
    (ht : ¬ 7000 < fix.now - st.lastSpoken) :
    locationCallback d features cap st fix =
      ({ advanceDisplay st fix with currentRoad := some n }, []) := by
  simp only [locationCallback, h, advanceDisplay]
  rw [if_pos hd, if_neg ht]

lemma locationCallback_announce (d : Dist) (features : List RoadFeature)
    (cap : ℚ) (st : AdvisorState) (fix : Fix) (n : String)
    (h : (findNearest d (fix.longitude, fix.latitude) features).nearest = some n)
    (hd : (findNearest d (fix.longitude, fix.latitude) features).minDist
        ≤ (30 : WithTop ℚ))
    (ht : 7000 < fix.now - st.lastSpoken) :
    locationCallback d features cap st fix =
      ({ advanceDisplay st fix with
          currentRoad := some n
          lastSpoken := fix.now },
       [if cap > (findNearest d (fix.longitude, fix.latitude) features).limit + 3
        then Utterance.overspeed n
          (findNearest d (fix.longitude, fix.latitude) features).limit
        else Utterance.normal n
          (findNearest d (fix.longitude, fix.latitude) features).limit]) := by
  simp only [locationCallback, h, advanceDisplay]
  rw [if_pos hd, if_pos ht]

/-! Claim theorems. -/

/-- Claim C2 (amended): for every point, the nearest-road scan returns the
feature achieving the global minimum observed distance over the well-formed
features, ties broken by iteration order (the first strict minimiser wins),
reporting that feature's name as JavaScript `name || null`; and a scan over
an index whose features all have malformed (shorter than two positions)
geometries reports no match even though the index is non-empty. -/
theorem nearest_scan_first_min :
    (∀ (d : Dist) (p : Point) (l₁ : List RoadFeature) (f : RoadFeature)
        (l₂ : List RoadFeature),
        (∀ g ∈ l₁, distOf d p f < distOf d p g) →
        (∀ g ∈ l₂, distOf d p f ≤ distOf d p g) →
        distOf d p f ≠ ⊤ →
        (findNearest d p (l₁ ++ f :: l₂)).minDist = distOf d p f ∧
          (findNearest d p (l₁ ++ f :: l₂)).nearest = jsOrNull f.name) ∧
    (∀ (d : Dist) (p : Point) (l : List RoadFeature),
        (∀ g ∈ l, g.geometry.length < 2) →
          (findNearest d p l).nearest = none) := by
  constructor
  · intro d p l₁ f l₂ h₁ h₂ h₃
    rw [findNearest_firstMin d p l₁ f l₂ h₁ h₂ h₃]
    exact ⟨rfl, rfl⟩
  · intro d p l h
    rw [findNearest_all_short d p l h]
    rfl

/-- Witness for `nearest_scan_first_min` at a two-feature index where the
first feature is strictly nearer. -/
theorem nearest_scan_first_min_witness :
    (findNearest dLen (0, 0) ([] ++ demoSession :: [demoKennon])).minDist
        = distOf dLen (0, 0) demoSession ∧
      (findNearest dLen (0, 0) ([] ++ demoSession :: [demoKennon])).nearest
        = jsOrNull demoSession.name :=
  nearest_scan_first_min.1 dLen (0, 0) [] demoSession [demoKennon]
    (by decide) (by decide) (by decide)

/-- Claim C2 counterexample: a non-empty index consisting of one feature
with a one-position geometry produces no match, so "no match only when the
index is empty" fails on the code. -/
theorem nearest_no_match_nonempty_index :
    ([demoBroken] : List RoadFeature) ≠ [] ∧
      (findNearest dLen (0, 0) [demoBroken]).nearest = none := by
  exact ⟨by decide, rfl⟩

/-- Claim C3: the effective speed limit of the matched feature is the
feature's own explicit limit when present, otherwise the `roadsSpeeds`
table entry for its name, otherwise 30; a feature named "Session Road"
with no explicit limit resolves to 20, and the limit the nearest-road scan
reports for the winning feature is exactly this resolution. -/
theorem effective_limit_resolution :
    (∀ (road : RoadFeature) (v : ℚ), road.speed_limit = some v →
        effectiveLimit road = v) ∧
    (∀ (road : RoadFeature) (s : String) (w : ℚ), road.speed_limit = none →
        road.name = some s → s ≠ "" → roadsSpeeds s = some w →
        effectiveLimit road = w) ∧
    (∀ (road : RoadFeature) (s : String), road.speed_limit = none →
        road.name = some s → roadsSpeeds s = none →
        effectiveLimit road = 30) ∧
    (∀ road : RoadFeature, road.speed_limit = none → road.name = none →
        effectiveLimit road = 30) ∧
    effectiveLimit demoSession = 20 ∧
    (∀ (d : Dist) (p : Point) (l₁ : List RoadFeature) (f : RoadFeature)
        (l₂ : List RoadFeature),
        (∀ g ∈ l₁, distOf d p f < distOf d p g) →
        (∀ g ∈ l₂, distOf d p f ≤ distOf d p g) →
        distOf d p f ≠ ⊤ →
        (findNearest d p (l₁ ++ f :: l₂)).limit = effectiveLimit f) := by
  refine ⟨?_, ?_, ?_, ?_, ?_, ?_⟩
  · intro road v h
    unfold effectiveLimit
    rw [h]
    rfl
  · intro road s w hlim hname hs htab
    unfold effectiveLimit jsOrNull
    rw [hlim, hname]
    simp only [if_neg hs, Option.getD_some, htab]
    rfl
  · intro road s hlim hname htab
    unfold effectiveLimit jsOrNull
    rw [hlim, hname]
    by_cases hs : s = ""
    · subst hs
      rfl
    · simp only [if_neg hs, Option.getD_some, htab]
      rfl
  · intro road hlim hname
    unfold effectiveLimit jsOrNull
    rw [hlim, hname]
    rfl
  · rfl
  · intro d p l₁ f l₂ h₁ h₂ h₃
    rw [findNearest_firstMin d p l₁ f l₂ h₁ h₂ h₃]

/-- Witness for `effective_limit_resolution` on a feature with an explicit
limit. -/
theorem effective_limit_resolution_witness :
    effectiveLimit demoKennon = 50 :=
  effective_limit_resolution.1 demoKennon 50 rfl

/-- Claim C6: a feature with malformed (shorter than two positions)
geometry is excluded from the scan it occurs in, and both the nearest-road
scan and the route-matching scan produce the same result as if the feature
were absent: one corrupt feature never blocks matching against the rest. -/
theorem malformed_feature_skipped :
    (∀ (d : Dist) (p : Point) (l₁ : List RoadFeature) (g : RoadFeature)
        (l₂ : List RoadFeature),
        g.geometry.length < 2 →
        findNearest d p (l₁ ++ g :: l₂) = findNearest d p (l₁ ++ l₂)) ∧
    (∀ (d : Dist) (coords : List Point) (l₁ : List RoadFeature)
        (g : RoadFeature) (l₂ : List RoadFeature),
        g.geometry.length < 2 →
        routeScan d (l₁ ++ g :: l₂) coords = routeScan d (l₁ ++ l₂) coords) := by
  constructor
  · intro d p l₁ g l₂ h
    unfold findNearest
    rw [List.foldl_append, List.foldl_append, List.foldl_cons]
    congr 1
    unfold scanStep
    rw [if_pos h]
  · intro d coords l₁ g l₂ h
    unfold routeScan
    rw [List.foldl_append, List.foldl_append, List.foldl_cons]
    congr 1
    exact routeRoadStep_none d coords g _ (fun c _ => by
      unfold distOf
      rw [if_pos h]
      decide)

/-- Witness for `malformed_feature_skipped`: dropping the broken feature
does not change the nearest-road result. -/
theorem malformed_feature_skipped_witness :
    findNearest dLen (0, 0) ([demoSession] ++ demoBroken :: [demoKennon])
      = findNearest dLen (0, 0) ([demoSession] ++ [demoKennon]) :=
  malformed_feature_skipped.1 dLen (0, 0) [demoSession] demoBroken
    [demoKennon] (by decide)

/-- Claim C4: the installed position callback never speaks while at most
7000 ms have elapsed since the recorded last announcement, regardless of
which road is matched and whether it changed, and keeps the recorded
timestamp; on a fix matched within 30 m with strictly more than 7000 ms
elapsed it speaks exactly one utterance and records that fix's time. -/
theorem advisor_cooldown :
    (∀ (d : Dist) (features : List RoadFeature) (st : AdvisorState) (fix : Fix),
        fix.now - st.lastSpoken ≤ 7000 →
        (locationCallbackApp d features st fix).2 = [] ∧
          (locationCallbackApp d features st fix).1.lastSpoken = st.lastSpoken) ∧
    (∀ (d : Dist) (features : List RoadFeature) (st : AdvisorState) (fix : Fix),
        (findNearest d (fix.longitude, fix.latitude) features).nearest ≠ none →
        (findNearest d (fix.longitude, fix.latitude) features).minDist
            ≤ (30 : WithTop ℚ) →
        7000 < fix.now - st.lastSpoken →
        (locationCallbackApp d features st fix).2.length = 1 ∧
          (locationCallbackApp d features st fix).1.lastSpoken = fix.now) := by
  constructor
  · intro d features st fix h
    unfold locationCallbackApp
    rcases hr : (findNearest d (fix.longitude, fix.latitude) features).nearest
      with _ | n
    · rw [locationCallback_no_nearest d features 0 st fix hr]
      exact ⟨rfl, rfl⟩
    · by_cases hd : (findNearest d (fix.longitude, fix.latitude) features).minDist
          ≤ (30 : WithTop ℚ)
      · rw [locationCallback_cooldown d features 0 st fix n hr hd (not_lt.mpr h)]
        exact ⟨rfl, rfl⟩
      · rw [locationCallback_far d features 0 st fix n hr hd]
        exact ⟨rfl, rfl⟩
  · intro d features st fix hn hd ht
    rcases hr : (findNearest d (fix.longitude, fix.latitude) features).nearest
      with _ | n
    · exact absurd hr hn
    · unfold locationCallbackApp
      rw [locationCallback_announce d features 0 st fix n hr hd ht]
      exact ⟨rfl, rfl⟩

/-- Witness for `advisor_cooldown`: a matched fix 5000 ms after the last
announcement stays silent, and one 100000 ms after it announces. -/
theorem advisor_cooldown_witness :
    ((locationCallbackApp dZero [demoSession] st0 fixEarly).2 = [] ∧
      (locationCallbackApp dZero [demoSession] st0 fixEarly).1.lastSpoken
        = st0.lastSpoken) ∧
    ((locationCallbackApp dZero [demoSession] st0 fix36).2.length = 1 ∧
      (locationCallbackApp dZero [demoSession] st0 fix36).1.lastSpoken
        = fix36.now) :=
  ⟨advisor_cooldown.1 dZero [demoSession] st0 fixEarly (by decide),
   advisor_cooldown.2 dZero [demoSession] st0 fix36 (by decide) (by decide)
     (by decide)⟩

/-- Claim C9: on a fix with no road matched within 30 m, the displayed
current road and the announcement timestamp are unchanged and nothing is
spoken; the live speed readout is updated to the fix speed times 3.6. -/
theorem no_match_frame :
    ∀ (d : Dist) (features : List RoadFeature) (st : AdvisorState) (fix : Fix),
      ((findNearest d (fix.longitude, fix.latitude) features).nearest = none ∨
        ¬ (findNearest d (fix.longitude, fix.latitude) features).minDist
            ≤ (30 : WithTop ℚ)) →
      (locationCallbackApp d features st fix).1.currentRoad = st.currentRoad ∧
      (locationCallbackApp d features st fix).1.lastSpoken = st.lastSpoken ∧
      (locationCallbackApp d features st fix).2 = [] ∧
      (locationCallbackApp d features st fix).1.userSpeed
        = (fix.speed.getD 0) * 3.6 := by
  intro d features st fix h
  unfold locationCallbackApp
  rcases hr : (findNearest d (fix.longitude, fix.latitude) features).nearest
    with _ | n
  · rw [locationCallback_no_nearest d features 0 st fix hr]
    exact ⟨rfl, rfl, rfl, rfl⟩
  · rcases h with hnone | hfar
    · rw [hr] at hnone
      exact absurd hnone (Option.some_ne_none n)
    · rw [locationCallback_far d features 0 st fix n hr hfar]
      exact ⟨rfl, rfl, rfl, rfl⟩

/-- Witness for `no_match_frame`: every road is 100 m away. -/
theorem no_match_frame_witness :
    (locationCallbackApp dFar [demoSession] st0 fix36).1.currentRoad
        = st0.currentRoad ∧
      (locationCallbackApp dFar [demoSession] st0 fix36).1.lastSpoken
        = st0.lastSpoken ∧
      (locationCallbackApp dFar [demoSession] st0 fix36).2 = [] ∧
      (locationCallbackApp dFar [demoSession] st0 fix36).1.userSpeed
        = (fix36.speed.getD 0) * 3.6 :=
  no_match_frame dFar [demoSession] st0 fix36 (Or.inr (by decide))

/-- Claim C1 (code bug): at a fix travelling 36 km/h on a road whose
effective limit is 20 — well above limit + 3 — the callback still speaks
the NORMAL wording: the comparison on MapScreen.tsx:117 reads the
`userSpeed` binding captured by the effect's closure at the first render,
which is permanently 0, not the speed of the current fix. -/
theorem overspeed_wording_stale_speed :
    ((fix36.speed.getD 0) * 3.6 > effectiveLimit demoSession + 3) ∧
    (locationCallbackApp dZero [demoSession] st0 fix36).1.userSpeed = 36 ∧
    (locationCallbackApp dZero [demoSession] st0 fix36).2
      = [Utterance.normal "Session Road" 20] := by
  have hfn : findNearest dZero (0, 0) [demoSession]
      = { nearest := some "Session Road", limit := 20,
          minDist := ((0 : ℚ) : WithTop ℚ) } := by rfl
  refine ⟨?_, ?_, ?_⟩
  · show (10 : ℚ) * 3.6 > 20 + 3
    norm_num
  · show (10 : ℚ) * 3.6 = 36
    norm_num
  · unfold locationCallbackApp
    rw [locationCallback_announce dZero [demoSession] 0 st0 fix36
      "Session Road" (by rw [show ((0 : ℚ), (0 : ℚ)) = (fix36.longitude, fix36.latitude) from rfl] at hfn; rw [hfn]) (by decide) (by decide)]
    rw [show (findNearest dZero (fix36.longitude, fix36.latitude)
      [demoSession]).limit = 20 from rfl]
    rw [if_neg (by norm_num)]

/-- Claim C5: the matched-roads result of a successful search consists
exactly of records of features lying within 30 m of at least one route
coordinate — every record comes from such a feature, every such feature
contributes its name — with no name recorded twice and every record
tagged with the color of its speed limit; the color thresholds are
inclusive: 20 is yellow, 30 orange, 40 red, 60 green. -/
theorem route_match_spec :
    (∀ (d : Dist) (features : List RoadFeature) (coords : List Point),
        (∀ x ∈ routeScan d features coords,
            ∃ road ∈ features,
              (∃ c ∈ coords, distOf d c road ≤ (30 : WithTop ℚ)) ∧
                x = mkMatched road) ∧
        (∀ road ∈ features,
            (∃ c ∈ coords, distOf d c road ≤ (30 : WithTop ℚ)) →
            ∃ x ∈ routeScan d features coords, x.name = routeName road) ∧
        ((routeScan d features coords).map MatchedRoad.name).Nodup ∧
        (∀ x ∈ routeScan d features coords,
            x.color = getColorForSpeed x.speed_limit)) ∧
    getColorForSpeed 20 = "rgba(255,255,0,0.9)" ∧
    getColorForSpeed 30 = "rgba(255,165,0,0.9)" ∧
    getColorForSpeed 40 = "rgba(255,0,0,0.9)" ∧
    getColorForSpeed 60 = "rgba(0,128,0,0.9)" := by
  refine ⟨?_, by decide, by decide, by decide, by decide⟩
  intro d features coords
  refine ⟨?_, ?_, ?_, ?_⟩
  · intro x hx
    rcases routeScan_sound d coords features [] x hx with hm | hroad
    · exact absurd hm (List.not_mem_nil x)
    · exact hroad
  · intro road hroad hhit
    exact routeScan_complete d coords features [] road hroad hhit
  · exact routeScan_nodup d coords features [] List.nodup_nil
  · intro x hx
    rcases routeScan_sound d coords features [] x hx with hm | ⟨road, _, _, hx'⟩
    · exact absurd hm (List.not_mem_nil x)
    · rw [hx']
      rfl

/-- Witness for `route_match_spec`: a feature on the route contributes its
name to the matched set. -/
theorem route_match_spec_witness :
    ∃ x ∈ routeScan dZero [demoSession] [(0, 0)],
      x.name = routeName demoSession :=
  (route_match_spec.1 dZero [demoSession] [(0, 0)]).2.1 demoSession
    (by decide) ⟨(0, 0), by decide, by decide⟩

/-- Claim C7: `handleSearch` on a non-blank query fails with the
"Not found" alert when the geocoder returns no candidates, with the
location alert when no fix has been received, and with the "Routing
failed" alert when the router returns no route; each failure emits exactly
that notification after the requests made so far and leaves the search
state unchanged. -/
theorem plan_route_failures :
    (∀ (d : Dist) (features : List RoadFeature) (query : String)
        (userLoc : Option (ℚ × ℚ)) (routes : List (List Point))
        (st : SearchState),
        jsTrim query ≠ "" →
        handleSearch d features query [] userLoc routes st =
          ([Effect.geocodeRequest query,
            Effect.alertBox "Not found" "Could not find that location."], st)) ∧
    (∀ (d : Dist) (features : List RoadFeature) (query : String)
        (geo : List Candidate) (routes : List (List Point)) (st : SearchState),
        jsTrim query ≠ "" → geo ≠ [] →
        handleSearch d features query geo none routes st =
          ([Effect.geocodeRequest query,
            Effect.alertBox "Error" "User location not yet detected."], st)) ∧
    (∀ (d : Dist) (features : List RoadFeature) (query : String)
        (geo : List Candidate) (loc : ℚ × ℚ) (st : SearchState),
        jsTrim query ≠ "" → geo ≠ [] →
        handleSearch d features query geo (some loc) [] st =
          ([Effect.geocodeRequest query,
            Effect.routeRequest loc
              ((geo.headD ⟨0, 0⟩).lat, (geo.headD ⟨0, 0⟩).lon),
            Effect.alertBox "Routing failed" "No route found."], st)) := by
  refine ⟨?_, ?_, ?_⟩
  · intro d features query userLoc routes st hq
    unfold handleSearch
    rw [if_neg hq]
    rfl
  · intro d features query geo routes st hq hgeo
    unfold handleSearch
    rw [if_neg hq, if_neg (by simpa using hgeo)]
    rfl
  · intro d features query geo loc st hq hgeo
    unfold handleSearch
    rw [if_neg hq, if_neg (by simpa using hgeo)]
    rfl

/-- Witness for `plan_route_failures`: the three failures at concrete
inputs. -/
theorem plan_route_failures_witness :
    handleSearch dZero [demoSession] "nowhere" [] none [] stEmpty =
        ([Effect.geocodeRequest "nowhere",
          Effect.alertBox "Not found" "Could not find that location."],
         stEmpty) ∧
    handleSearch dZero [demoSession] "nowhere" [⟨1, 2⟩] none [] stEmpty =
        ([Effect.geocodeRequest "nowhere",
          Effect.alertBox "Error" "User location not yet detected."],
         stEmpty) ∧
    handleSearch dZero [demoSession] "nowhere" [⟨1, 2⟩] (some (3, 4)) [] stEmpty =
        ([Effect.geocodeRequest "nowhere",
          Effect.routeRequest (3, 4) (1, 2),
          Effect.alertBox "Routing failed" "No route found."],
         stEmpty) :=
  ⟨plan_route_failures.1 dZero [demoSession] "nowhere" none [] stEmpty
      (by decide),
   plan_route_failures.2.1 dZero [demoSession] "nowhere" [⟨1, 2⟩] [] stEmpty
      (by decide) (by decide),
   plan_route_failures.2.2 dZero [demoSession] "nowhere" [⟨1, 2⟩] (3, 4)
      stEmpty (by decide) (by decide)⟩

/-- Claim C10: a query that is empty or whitespace-only makes
`handleSearch` return immediately: no request, no notification, no speech,
and the search state untouched. -/
theorem empty_query_noop :
    ∀ (d : Dist) (features : List RoadFeature) (query : String)
        (geo : List Candidate) (userLoc : Option (ℚ × ℚ))
        (routes : List (List Point)) (st : SearchState),
      jsTrim query = "" →
      handleSearch d features query geo userLoc routes st = ([], st) := by
  intro d features query geo userLoc routes st h
  unfold handleSearch
  rw [if_pos h]

/-- Witness for `empty_query_noop` at a whitespace-only query. -/
theorem empty_query_noop_witness :
    handleSearch dZero [demoSession] "   " [⟨1, 2⟩] (some (3, 4))
        [[(0, 0), (1, 1)]] stEmpty = ([], stEmpty) :=
  empty_query_noop dZero [demoSession] "   " [⟨1, 2⟩] (some (3, 4))
    [[(0, 0), (1, 1)]] stEmpty (by decide)

/-- Claim C8 (amended): a prefix that trims to the empty string — empty or
whitespace-only — yields no suggestions; any other prefix yields exactly
the features whose names contain it case-insensitively, in Road Index
order, truncated to at most 5. -/
theorem suggest_spec_amended :
    (∀ (features : List RoadFeature) (text : String), jsTrim text = "" →
        suggest features text = []) ∧
    (∀ (features : List RoadFeature) (text : String),
        (suggest features text).length ≤ 5) ∧
    (∀ (features : List RoadFeature) (text : String),
        (suggest features text).Sublist features) ∧
    (∀ (features : List RoadFeature) (text : String),
        ∀ r ∈ suggest features text, nameMatches text r = true) ∧
    (∀ (features : List RoadFeature) (text : String), jsTrim text ≠ "" →
        suggest features text
          = (features.filter (nameMatches text)).take 5) := by
  refine ⟨?_, ?_, ?_, ?_, ?_⟩
  · intro features text h
    unfold suggest
    rw [if_pos h]
  · intro features text
    unfold suggest
    split
    · exact Nat.zero_le 5
    · rw [List.length_take]
      exact min_le_left 5 _
  · intro features text
    unfold suggest
    split
    · exact List.nil_sublist features
    · exact ((features.filter (nameMatches text)).take_sublist 5).trans
        (List.filter_sublist features)
  · intro features text r hr
    unfold suggest at hr
    split at hr
    · exact absurd hr (List.not_mem_nil r)
    · exact List.of_mem_filter (List.mem_of_mem_take hr)
  · intro features text h
    unfold suggest
    rw [if_neg h]

/-- Witness for `suggest_spec_amended`: a non-blank prefix produces the
truncated filter. -/
theorem suggest_spec_amended_witness :
    suggest [demoSession, demoKennon] "road"
      = ([demoSession, demoKennon].filter (nameMatches "road")).take 5 :=
  suggest_spec_amended.2.2.2.2 [demoSession, demoKennon] "road" (by decide)

/-- Claim C8 counterexample: the prefix " " (one space) is contained in the
name "Session Road" case-insensitively, yet the code returns no
suggestions, because the handler tests `text.trim()` rather than only the
empty prefix. -/
theorem suggest_whitespace_counterexample :
    suggest [demoSession] " " = [] ∧
      ([demoSession].filter (nameMatches " ")).take 5 = [demoSession] := by
  exact ⟨by decide, by decide⟩

end PinePace
